import Mathlib

/-!
# Verification of the pothole detection-to-report pipeline (`src/app.py`)

Shallow embedding of the metric functions (`estimate_area`, `estimate_depth`,
`determine_severity`) and of the `/detect` request handler `detect_pothole`.
Python floats are modelled as exact rationals (`ℚ`); all constants in the code
(0.1, 0.3, 0.05, 0.5, 100) are exactly representable.  numpy boolean masks are
modelled as flattened `List Bool` (`np.sum` counts the `true` entries,
`.size` is the length).  External library primitives that the handler calls —
Python's `float(...)` parser and `datetime.strftime` — are passed in as
function parameters, since their implementations are not part of this
repository; the handler's behaviour is proved for every choice of them.
-/

namespace PotholeApp

/-- Calibration constant from `estimate_area` in src/app.py (line 120):
`pixels_per_meter = 100`. -/
def pixels_per_meter : ℚ := 100

/-- `estimate_area(area_pixels)` from src/app.py (lines 119-121):
`area_pixels / (pixels_per_meter**2)`. -/
def estimate_area (area_pixels : ℚ) : ℚ :=
  area_pixels / pixels_per_meter ^ 2

/-- `estimate_depth(area_m2)` from src/app.py (lines 123-126):
`0.05 + min(area_m2 * 0.5, 0.5)`. -/
def estimate_depth (area_m2 : ℚ) : ℚ :=
  0.05 + min (area_m2 * 0.5) 0.5

/-- `determine_severity(area_m2)` from src/app.py (lines 128-131). -/
def determine_severity (area_m2 : ℚ) : String :=
  if area_m2 < 0.1 then "low"
  else if area_m2 < 0.3 then "medium"
  else "high"

/-- Numeric rank of a severity tier (`low < medium < high`), used to state
monotonicity of the string-valued classification. -/
def severityRank : String → Nat
  | "medium" => 1
  | "high" => 2
  | _ => 0

/-- `np.sum(mask)` on a flattened boolean mask: the number of `True` pixels. -/
def npSum (mask : List Bool) : Nat :=
  (mask.filter (fun b => b)).length

/-- A wall-clock instant, at microsecond resolution, split into whole epoch
seconds and the sub-second microseconds (`datetime` keeps both; the
`'%Y%m%d_%H%M%S'` format string keeps only the seconds). -/
structure Timestamp where
  epochSeconds : Nat
  micros : Nat
deriving DecidableEq

/-- One inbound `/detect` request together with what the external
collaborators would answer for it: `sam_loaded` is the readiness flag,
`has_image` is `'image' in request.files`, `image_filename` is the uploaded
file's name, `latitude_form`/`longitude_form` are the raw form values
(`none` = absent), `predictions` is the `(mask, score)` list the SAM
predictor returns for this image, `now` is the wall clock at handling time. -/
structure DetectRequest where
  sam_loaded : Bool
  has_image : Bool
  image_filename : String
  latitude_form : Option String
  longitude_form : Option String
  predictions : List (List Bool × ℚ)
  now : Timestamp

/-- The committed `Pothole` row (src/app.py lines 86-96, 198-204). -/
structure Report where
  id : Nat
  latitude : ℚ
  longitude : ℚ
  severity : String
  area : ℚ
  depth_meters : ℚ
  image_path : String
  confidence : ℚ
  created : Timestamp
deriving DecidableEq

/-- The `socketio.emit('new_pothole', ...)` payload (src/app.py lines 208-217). -/
structure FanoutEvent where
  id : Nat
  latitude : ℚ
  longitude : ℚ
  severity : String
  area : ℚ
  depth_meters : ℚ
  confidence : ℚ
  created : Timestamp
deriving DecidableEq

/-- The success JSON body (src/app.py lines 219-227). -/
structure SuccessResponse where
  pothole_id : Nat
  severity : String
  area_m2 : ℚ
  depth_meters : ℚ
  confidence : ℚ
  image_url : String
deriving DecidableEq

/-- The possible terminal outcomes of one `/detect` request. -/
inductive DetectOutcome where
  /-- `{'error': 'SAM not loaded'}, 500` (line 156) -/
  | samNotLoaded
  /-- `{'error': 'No image uploaded'}, 400` (line 158) -/
  | noImageUploaded
  /-- `{'error': 'No image selected'}, 400` (line 162) -/
  | noImageSelected
  /-- an uncaught `ValueError` escaping from `float(...)` (lines 164-165);
  Flask turns it into a generic 500 with no machine-readable kind -/
  | valueErrorCrash
  /-- `{'success': False}` (line 182) -/
  | noDetection
  /-- `{'success': True, ...}` (lines 219-227) -/
  | ok (resp : SuccessResponse)
deriving DecidableEq

/-- HTTP status code of each outcome as the code returns it. -/
def httpStatus : DetectOutcome → Nat
  | .samNotLoaded => 500
  | .noImageUploaded => 400
  | .noImageSelected => 400
  | .valueErrorCrash => 500
  | .noDetection => 200
  | .ok _ => 200

/-- Whether the outcome is an error response (a rejection or a crash), as
opposed to the two success-shaped bodies. -/
def isErrorOutcome : DetectOutcome → Bool
  | .samNotLoaded => true
  | .noImageUploaded => true
  | .noImageSelected => true
  | .valueErrorCrash => true
  | .noDetection => false
  | .ok _ => false

/-- Everything one run of the handler leaves behind: the HTTP outcome, the
rows committed to the database, the socket events emitted, the files written. -/
structure PipelineResult where
  outcome : DetectOutcome
  reports : List Report
  events : List FanoutEvent
  files_written : List String
deriving DecidableEq

/-- `app.config['UPLOAD_FOLDER']` (its default local value). -/
def UPLOAD_FOLDER : String := "data/uploads"

/-- `os.path.join` for the two joins the handler performs. -/
def pathJoin (a b : String) : String := a ++ "/" ++ b

/-- `f"pothole_{timestamp_utc.strftime('%Y%m%d_%H%M%S')}.jpg"` (line 192).
`strftime` models `datetime.strftime` with the `'%Y%m%d_%H%M%S'` format: that
format renders only whole seconds, so it is a function of `epochSeconds`
alone — the microseconds are discarded. -/
def overlayFilename (strftime : Nat → String) (t : Timestamp) : String :=
  "pothole_" ++ strftime t.epochSeconds ++ ".jpg"

/-- `float(request.form.get(key, 0.0))`: an absent form value defaults to
`0.0`; a present one goes through Python's `float`, modelled by the parameter
`pyFloat`, with `none` meaning `float` raises `ValueError`. -/
def parseForm (pyFloat : String → Option ℚ) : Option String → Option ℚ
  | none => some 0
  | some s => pyFloat s

/-- The `/detect` handler `detect_pothole` (src/app.py lines 153-227),
with its external primitives (`float`, `strftime`) and the id the store will
assign (`nextId`) as parameters.  The branches follow the source in order:
readiness check, image-field check, empty-filename check, coordinate parsing
(latitude first, then longitude — a parse failure raises), segmentation
result check (`len(masks)==0 or masks[0].size==0`), then measurement,
overlay write, commit, fan-out emit, success response. -/
def detect_pothole (pyFloat : String → Option ℚ) (strftime : Nat → String)
    (nextId : Nat) (req : DetectRequest) : PipelineResult :=
  if req.sam_loaded = false then ⟨.samNotLoaded, [], [], []⟩
  else if req.has_image = false then ⟨.noImageUploaded, [], [], []⟩
  else if req.image_filename = "" then ⟨.noImageSelected, [], [], []⟩
  else
    match parseForm pyFloat req.latitude_form, parseForm pyFloat req.longitude_form with
    | none, _ => ⟨.valueErrorCrash, [], [], []⟩
    | some _, none => ⟨.valueErrorCrash, [], [], []⟩
    | some latitude, some longitude =>
      match req.predictions with
      | [] => ⟨.noDetection, [], [], []⟩
      | (mask, score) :: _ =>
        if mask.length = 0 then ⟨.noDetection, [], [], []⟩
        else
          let confidence := score
          let area_m2 := estimate_area (npSum mask)
          let severity := determine_severity area_m2
          let depth_meters := estimate_depth area_m2
          let filename := overlayFilename strftime req.now
          let filepath := pathJoin UPLOAD_FOLDER filename
          ⟨.ok ⟨nextId, severity, area_m2, depth_meters, confidence,
              "/image/" ++ filename⟩,
            [⟨nextId, latitude, longitude, severity, area_m2, depth_meters,
              filepath, confidence, req.now⟩],
            [⟨nextId, latitude, longitude, severity, area_m2, depth_meters,
              confidence, req.now⟩],
            [filepath]⟩

/-- The `new_pothole` event payload is built from the same locals as the
committed row: this is that correspondence as a function of the row. -/
def eventOfReport (r : Report) : FanoutEvent :=
  ⟨r.id, r.latitude, r.longitude, r.severity, r.area, r.depth_meters,
    r.confidence, r.created⟩

/-- C1: `determine_severity` is the tiered step function of area:
`area < 0.1 → "low"`, `0.1 ≤ area < 0.3 → "medium"`, `area ≥ 0.3 → "high"`;
the boundaries give `severity 0.1 = "medium"` and `severity 0.3 = "high"`;
and the classification is monotonically non-decreasing in the area. -/
theorem determine_severity_tiers (a : ℚ) :
    (a < 0.1 → determine_severity a = "low") ∧
    (0.1 ≤ a → a < 0.3 → determine_severity a = "medium") ∧
    (0.3 ≤ a → determine_severity a = "high") ∧
    determine_severity 0.1 = "medium" ∧
    determine_severity 0.3 = "high" ∧
    (∀ b : ℚ, a ≤ b →
      severityRank (determine_severity a) ≤ severityRank (determine_severity b)) := by
  refine ⟨?_, ?_, ?_, ?_, ?_, ?_⟩
  · intro h; simp [determine_severity, h]
  · intro h1 h2; simp [determine_severity, not_lt.mpr h1, h2]
  · intro h
    have h1 : ¬ a < 0.1 := not_lt.mpr (by linarith)
    have h2 : ¬ a < 0.3 := not_lt.mpr h
    simp [determine_severity, h1, h2]
  · norm_num [determine_severity]
  · norm_num [determine_severity]
  · intro b hab
    unfold determine_severity
    split_ifs <;>
      first
        | decide
        | (exfalso; simp only [not_lt] at *; linarith)

/-- Witness for C1 at concrete areas 0.05, 0.2, 0.5. -/
theorem determine_severity_tiers_witness :
    determine_severity 0.05 = "low" ∧
    determine_severity 0.2 = "medium" ∧
    determine_severity 0.5 = "high" ∧
    severityRank (determine_severity 0.05) ≤ severityRank (determine_severity 0.2) :=
  ⟨(determine_severity_tiers 0.05).1 (by norm_num),
    (determine_severity_tiers 0.2).2.1 (by norm_num) (by norm_num),
    (determine_severity_tiers 0.5).2.2.1 (by norm_num),
    (determine_severity_tiers 0.05).2.2.2.2.2 0.2 (by norm_num)⟩

/-- C2: `estimate_depth a = 0.05 + min (a * 0.5) 0.5`; it is non-decreasing,
bounded in `[0.05, 0.55]` on the non-negative domain, with
`estimate_depth 0 = 0.05`, `estimate_depth 1 = 0.55`, `estimate_depth 10 = 0.55`. -/
theorem estimate_depth_spec (a : ℚ) :
    estimate_depth a = 0.05 + min (a * 0.5) 0.5 ∧
    (∀ b : ℚ, a ≤ b → estimate_depth a ≤ estimate_depth b) ∧
    (0 ≤ a → 0.05 ≤ estimate_depth a ∧ estimate_depth a ≤ 0.55) ∧
    estimate_depth 0 = 0.05 ∧ estimate_depth 1 = 0.55 ∧ estimate_depth 10 = 0.55 := by
  refine ⟨rfl, ?_, ?_, ?_, ?_, ?_⟩
  · intro b hab
    unfold estimate_depth
    have h : min (a * 0.5) 0.5 ≤ min (b * 0.5) 0.5 := min_le_min (by linarith) le_rfl
    linarith
  · intro ha
    unfold estimate_depth
    constructor
    · have h : (0:ℚ) ≤ min (a * 0.5) 0.5 :=
        le_min (mul_nonneg ha (by norm_num)) (by norm_num)
      linarith
    · have h : min (a * 0.5) 0.5 ≤ 0.5 := min_le_right _ _
      linarith
  · norm_num [estimate_depth, min_def]
  · norm_num [estimate_depth, min_def]
  · norm_num [estimate_depth, min_def]

/-- Witness for C2 at concrete areas 0 and 2. -/
theorem estimate_depth_spec_witness :
    estimate_depth 0 ≤ estimate_depth 1 ∧
    0.05 ≤ estimate_depth 2 ∧ estimate_depth 2 ≤ 0.55 :=
  ⟨(estimate_depth_spec 0).2.1 1 (by norm_num),
    ((estimate_depth_spec 2).2.2.1 (by norm_num)).1,
    ((estimate_depth_spec 2).2.2.1 (by norm_num)).2⟩

/-- C3: the calibration constant is 100 pixels per meter and
`estimate_area p = p / pixels_per_meter² = p / 10000`, with `estimate_area 0 = 0`. -/
theorem estimate_area_spec :
    pixels_per_meter = 100 ∧
    (∀ p : ℚ, estimate_area p = p / pixels_per_meter ^ 2) ∧
    (∀ p : ℚ, estimate_area p = p / 10000) ∧
    estimate_area 0 = 0 := by
  refine ⟨rfl, fun p => rfl, fun p => ?_, ?_⟩
  · unfold estimate_area pixels_per_meter; norm_num
  · norm_num [estimate_area]

/-- Counterexample for C4: at pixel count −10000 the code computes
`area = −1` (not `0`) and `depth = −0.45` (not `0.05`): `estimate_area` has
no clamping for negative inputs, and `estimate_depth` drops below its floor
for negative areas.  (`determine_severity` does return `"low"` there.) -/
theorem metrics_negative_counterexample :
    estimate_area (-10000) = -1 ∧
    ¬ estimate_area (-10000) = 0 ∧
    estimate_depth (estimate_area (-10000)) = -0.45 ∧
    ¬ estimate_depth (estimate_area (-10000)) = 0.05 ∧
    determine_severity (estimate_area (-10000)) = "low" := by
  norm_num [estimate_area, estimate_depth, determine_severity, pixels_per_meter, min_def]

/-- C4 (amended): at pixel count 0 — the only non-positive count the pipeline
can produce, since `np.sum` of a boolean mask is non-negative — the area is 0,
the severity is `"low"` and the depth is 0.05; the severity is `"low"` for
every non-positive area; but for strictly negative pixel counts the code
computes `p / 10000` with no clamping to 0 (so the area is negative and the
depth is below 0.05). -/
theorem metrics_total_zero_amended :
    estimate_area 0 = 0 ∧
    determine_severity 0 = "low" ∧
    estimate_depth 0 = 0.05 ∧
    (∀ a : ℚ, a ≤ 0 → determine_severity a = "low") ∧
    (∀ p : ℚ, estimate_area p = p / 10000) := by
  refine ⟨?_, ?_, ?_, ?_, ?_⟩
  · norm_num [estimate_area]
  · norm_num [determine_severity]
  · norm_num [estimate_depth, min_def]
  · intro a ha
    have h : a < 0.1 := by linarith
    simp [determine_severity, h]
  · intro p; unfold estimate_area pixels_per_meter; norm_num

/-- Witness for the amended C4 at area −1 and pixel count 0. -/
theorem metrics_total_zero_amended_witness :
    determine_severity (-1) = "low" ∧ estimate_area 0 = 0 :=
  ⟨metrics_total_zero_amended.2.2.2.1 (-1) (by norm_num),
    metrics_total_zero_amended.1⟩

/-- A run that passes every check reaches the success branch, and the entire
result — response, committed row, emitted event, written file — is determined
by the first mask, its score, the parsed coordinates and the clock. -/
theorem detect_pothole_run_eq (pyFloat : String → Option ℚ) (strftime : Nat → String)
    (nextId : Nat) (req : DetectRequest) (mask : List Bool) (score lat lon : ℚ)
    (rest : List (List Bool × ℚ))
    (hsam : req.sam_loaded = true) (himg : req.has_image = true)
    (hfn : ¬ req.image_filename = "")
    (hlat : parseForm pyFloat req.latitude_form = some lat)
    (hlon : parseForm pyFloat req.longitude_form = some lon)
    (hpred : req.predictions = (mask, score) :: rest)
    (hne : ¬ mask.length = 0) :
    detect_pothole pyFloat strftime nextId req =
      ⟨.ok ⟨nextId, determine_severity (estimate_area (npSum mask)),
          estimate_area (npSum mask), estimate_depth (estimate_area (npSum mask)),
          score, "/image/" ++ overlayFilename strftime req.now⟩,
        [⟨nextId, lat, lon, determine_severity (estimate_area (npSum mask)),
          estimate_area (npSum mask), estimate_depth (estimate_area (npSum mask)),
          pathJoin UPLOAD_FOLDER (overlayFilename strftime req.now), score, req.now⟩],
        [⟨nextId, lat, lon, determine_severity (estimate_area (npSum mask)),
          estimate_area (npSum mask), estimate_depth (estimate_area (npSum mask)),
          score, req.now⟩],
        [pathJoin UPLOAD_FOLDER (overlayFilename strftime req.now)]⟩ := by
  unfold detect_pothole
  rw [hsam, himg, hlat, hlon, hpred]
  simp [hfn, hne]

/-- Any run either leaves no trace at all (no reports, no events, no files)
or satisfies every precondition of the success branch. -/
theorem detect_pothole_shape (pyFloat : String → Option ℚ) (strftime : Nat → String)
    (nextId : Nat) (req : DetectRequest) :
    ((detect_pothole pyFloat strftime nextId req).reports = [] ∧
      (detect_pothole pyFloat strftime nextId req).events = [] ∧
      (detect_pothole pyFloat strftime nextId req).files_written = []) ∨
    ∃ mask score rest lat lon,
      req.sam_loaded = true ∧ req.has_image = true ∧ ¬ req.image_filename = "" ∧
      parseForm pyFloat req.latitude_form = some lat ∧
      parseForm pyFloat req.longitude_form = some lon ∧
      req.predictions = (mask, score) :: rest ∧ ¬ mask.length = 0 := by
  by_cases hsam : req.sam_loaded = false
  · left; simp [detect_pothole, hsam]
  · have hsam' : req.sam_loaded = true := by simpa using hsam
    by_cases himg : req.has_image = false
    · left; simp [detect_pothole, hsam, himg]
    · have himg' : req.has_image = true := by simpa using himg
      by_cases hfn : req.image_filename = ""
      · left; simp [detect_pothole, hsam, himg, hfn]
      · cases hlat : parseForm pyFloat req.latitude_form with
        | none => left; simp [detect_pothole, hsam, himg, hfn, hlat]
        | some lat =>
          cases hlon : parseForm pyFloat req.longitude_form with
          | none => left; simp [detect_pothole, hsam, himg, hfn, hlat, hlon]
          | some lon =>
            cases hpred : req.predictions with
            | nil => left; simp [detect_pothole, hsam, himg, hfn, hlat, hlon, hpred]
            | cons p rest =>
              obtain ⟨mask, score⟩ := p
              by_cases hne : mask.length = 0
              · left; simp [detect_pothole, hsam, himg, hfn, hlat, hlon, hpred, hne]
              · exact Or.inr ⟨mask, score, rest, lat, lon, hsam', himg', hfn,
                  rfl, rfl, rfl, hne⟩


/-- C5: every committed report has `severity = determine_severity area` and
`depth_meters = estimate_depth area`, its confidence is the first mask's
score copied verbatim and its area is derived from that mask's pixel count;
the run emits exactly one fan-out event, built from the same values as the
row, and the success response carries those same values. -/
theorem detect_pothole_report_consistent (pyFloat : String → Option ℚ)
    (strftime : Nat → String) (nextId : Nat) (req : DetectRequest) (rep : Report)
    (h : rep ∈ (detect_pothole pyFloat strftime nextId req).reports) :
    rep.severity = determine_severity rep.area ∧
    rep.depth_meters = estimate_depth rep.area ∧
    (∃ mask score rest, req.predictions = (mask, score) :: rest ∧
      rep.confidence = score ∧ rep.area = estimate_area (npSum mask)) ∧
    (detect_pothole pyFloat strftime nextId req).events = [eventOfReport rep] ∧
    (∃ resp, (detect_pothole pyFloat strftime nextId req).outcome =
        DetectOutcome.ok resp ∧
      resp.pothole_id = rep.id ∧ resp.severity = rep.severity ∧
      resp.area_m2 = rep.area ∧ resp.depth_meters = rep.depth_meters ∧
      resp.confidence = rep.confidence) := by
  rcases detect_pothole_shape pyFloat strftime nextId req with ⟨hr, _, _⟩ |
    ⟨mask, score, rest, lat, lon, hsam, himg, hfn, hlat, hlon, hpred, hne⟩
  · rw [hr] at h; cases h
  · rw [detect_pothole_run_eq pyFloat strftime nextId req mask score lat lon rest
      hsam himg hfn hlat hlon hpred hne] at h ⊢
    simp only [List.mem_singleton] at h
    subst h
    exact ⟨rfl, rfl, ⟨mask, score, rest, hpred, rfl, rfl⟩, rfl,
      ⟨_, rfl, rfl, rfl, rfl, rfl, rfl⟩⟩

/-- The §8 end-to-end scenario request: a mask of 500 foreground pixels
(area 500/100² = 0.05 m²) with confidence 0.82, coordinates supplied. -/
def scenarioReq : DetectRequest :=
  ⟨true, true, "road.jpg", some "40.7", some "-74.0",
    [(List.replicate 500 true, 0.82)], ⟨1700000000, 0⟩⟩

/-- A concrete stand-in for Python's `float` covering the scenario's values. -/
def scenarioParse : String → Option ℚ :=
  fun s => if s = "40.7" then some 40.7 else if s = "-74.0" then some (-74) else none

/-- A concrete stand-in for `strftime('%Y%m%d_%H%M%S')`. -/
def scenarioClock : Nat → String := fun n => toString n

/-- The report the scenario run commits. -/
def scenarioReport : Report :=
  ⟨1, 40.7, -74, "low", 0.05, 0.075,
    pathJoin UPLOAD_FOLDER ("pothole_" ++ toString 1700000000 ++ ".jpg"), 0.82,
    ⟨1700000000, 0⟩⟩

/-- Witness for C5: the scenario run commits exactly the expected report —
severity `"low"`, depth 0.075, confidence 0.82 — and one matching event. -/
theorem detect_pothole_report_consistent_witness :
    scenarioReport ∈ (detect_pothole scenarioParse scenarioClock 1 scenarioReq).reports ∧
    scenarioReport.severity = "low" ∧ scenarioReport.depth_meters = 0.075 ∧
    scenarioReport.confidence = 0.82 ∧
    scenarioReport.severity = determine_severity scenarioReport.area ∧
    scenarioReport.depth_meters = estimate_depth scenarioReport.area ∧
    (detect_pothole scenarioParse scenarioClock 1 scenarioReq).events =
      [eventOfReport scenarioReport] := by
  have hf : (List.replicate 500 true).filter (fun b => b) = List.replicate 500 true :=
    List.filter_eq_self.mpr (fun a ha => by simp [List.eq_of_mem_replicate ha])
  have hnp : ((npSum (List.replicate 500 true) : ℕ) : ℚ) = 500 := by
    unfold npSum
    rw [hf, List.length_replicate]
    norm_num
  have harea : estimate_area ((npSum (List.replicate 500 true) : ℕ) : ℚ) = 0.05 := by
    rw [hnp]
    unfold estimate_area pixels_per_meter
    norm_num
  have hsev : determine_severity (0.05 : ℚ) = "low" := by
    norm_num [determine_severity]
  have hdep : estimate_depth (0.05 : ℚ) = 0.075 := by
    norm_num [estimate_depth, min_def]
  have he := detect_pothole_run_eq scenarioParse scenarioClock 1 scenarioReq
    (List.replicate 500 true) 0.82 40.7 (-74) [] rfl rfl (by decide) rfl rfl rfl
    (by rw [List.length_replicate]; omega)
  rw [harea, hsev, hdep] at he
  have hm : scenarioReport ∈
      (detect_pothole scenarioParse scenarioClock 1 scenarioReq).reports := by
    rw [he]
    exact List.mem_singleton.mpr rfl
  have h := detect_pothole_report_consistent scenarioParse scenarioClock 1
    scenarioReq scenarioReport hm
  exact ⟨hm, rfl, rfl, rfl, h.1, h.2.1, h.2.2.2.1⟩

/-- C6: while the readiness flag is false the request is rejected with the
model-not-ready error (HTTP 500) and nothing happens: no report, no event,
no file. -/
theorem detect_pothole_model_not_ready (pyFloat : String → Option ℚ)
    (strftime : Nat → String) (nextId : Nat) (req : DetectRequest)
    (h : req.sam_loaded = false) :
    detect_pothole pyFloat strftime nextId req =
      ⟨DetectOutcome.samNotLoaded, [], [], []⟩ ∧
    isErrorOutcome (detect_pothole pyFloat strftime nextId req).outcome = true := by
  have he : detect_pothole pyFloat strftime nextId req =
      ⟨DetectOutcome.samNotLoaded, [], [], []⟩ := by
    unfold detect_pothole; rw [h]; simp
  exact ⟨he, by rw [he]; rfl⟩

/-- Witness for C6 at a concrete request with the flag down. -/
theorem detect_pothole_model_not_ready_witness :
    detect_pothole (fun _ => none) (fun n => toString n) 1
      ⟨false, true, "a.jpg", none, none, [([true], 0.9)], ⟨0, 0⟩⟩ =
      ⟨DetectOutcome.samNotLoaded, [], [], []⟩ :=
  (detect_pothole_model_not_ready (fun _ => none) (fun n => toString n) 1
    ⟨false, true, "a.jpg", none, none, [([true], 0.9)], ⟨0, 0⟩⟩ rfl).1

/-- C7: when the predictor returns zero masks or a zero-size first mask, the
run ends in the distinct no-detection response — success-shaped (HTTP 200,
not an error) — with no report, no event and no file written. -/
theorem detect_pothole_no_detection (pyFloat : String → Option ℚ)
    (strftime : Nat → String) (nextId : Nat) (req : DetectRequest)
    (hsam : req.sam_loaded = true) (himg : req.has_image = true)
    (hfn : ¬ req.image_filename = "")
    (hlat : ∃ lat, parseForm pyFloat req.latitude_form = some lat)
    (hlon : ∃ lon, parseForm pyFloat req.longitude_form = some lon)
    (hmask : req.predictions = [] ∨
      ∃ mask score rest, req.predictions = (mask, score) :: rest ∧ mask.length = 0) :
    detect_pothole pyFloat strftime nextId req =
      ⟨DetectOutcome.noDetection, [], [], []⟩ ∧
    isErrorOutcome (detect_pothole pyFloat strftime nextId req).outcome = false ∧
    httpStatus (detect_pothole pyFloat strftime nextId req).outcome = 200 := by
  obtain ⟨lat, hlat⟩ := hlat
  obtain ⟨lon, hlon⟩ := hlon
  have he : detect_pothole pyFloat strftime nextId req =
      ⟨DetectOutcome.noDetection, [], [], []⟩ := by
    unfold detect_pothole
    rw [hsam, himg, hlat, hlon]
    rcases hmask with hmask | ⟨mask, score, rest, hpred, hne⟩
    · rw [hmask]; simp [hfn]
    · rw [hpred]; simp [hfn, hne]
  exact ⟨he, by rw [he]; rfl, by rw [he]; rfl⟩

/-- Witness for C7 at a concrete request whose predictor returns no masks. -/
theorem detect_pothole_no_detection_witness :
    detect_pothole (fun _ => none) (fun n => toString n) 1
      ⟨true, true, "a.jpg", none, none, [], ⟨0, 0⟩⟩ =
      ⟨DetectOutcome.noDetection, [], [], []⟩ :=
  (detect_pothole_no_detection (fun _ => none) (fun n => toString n) 1
    ⟨true, true, "a.jpg", none, none, [], ⟨0, 0⟩⟩ rfl rfl (by decide)
    ⟨0, rfl⟩ ⟨0, rfl⟩ (Or.inl rfl)).1

/-- C8 (refuted — code bug): the overlay filename is
`"pothole_" ++ strftime(epoch second) ++ ".jpg"`, and the
`'%Y%m%d_%H%M%S'` format renders only whole seconds, so any two instants in
the same second — however they differ below the second — produce the SAME
filename: generation is not collision-free within a one-second quantum. -/
theorem overlay_filename_same_second_collision (strftime : Nat → String)
    (t1 t2 : Timestamp) (h : t1.epochSeconds = t2.epochSeconds) :
    overlayFilename strftime t1 = overlayFilename strftime t2 := by
  unfold overlayFilename; rw [h]

/-- Witness for C8: two genuinely distinct instants one microsecond apart in
the same second collide on the filename. -/
theorem overlay_filename_same_second_collision_witness :
    (⟨1700000000, 1⟩ : Timestamp) ≠ ⟨1700000000, 999999⟩ ∧
    overlayFilename (fun n => toString n) ⟨1700000000, 1⟩ =
      overlayFilename (fun n => toString n) ⟨1700000000, 999999⟩ :=
  ⟨by decide,
    overlay_filename_same_second_collision (fun n => toString n)
      ⟨1700000000, 1⟩ ⟨1700000000, 999999⟩ rfl⟩

/-- C9 (refuted — code bug): a latitude form value that `float` cannot parse
makes the handler raise an uncaught `ValueError` — surfaced by the framework
as a generic 500 with no stable machine-readable kind, not as an
`InvalidInput` rejection; no report is committed and no event is emitted. -/
theorem detect_pothole_malformed_latitude (pyFloat : String → Option ℚ)
    (strftime : Nat → String) (nextId : Nat) (req : DetectRequest) (s : String)
    (hsam : req.sam_loaded = true) (himg : req.has_image = true)
    (hfn : ¬ req.image_filename = "")
    (hlat : req.latitude_form = some s) (hbad : pyFloat s = none) :
    detect_pothole pyFloat strftime nextId req =
      ⟨DetectOutcome.valueErrorCrash, [], [], []⟩ ∧
    httpStatus (detect_pothole pyFloat strftime nextId req).outcome = 500 := by
  have he : detect_pothole pyFloat strftime nextId req =
      ⟨DetectOutcome.valueErrorCrash, [], [], []⟩ := by
    unfold detect_pothole
    have h : parseForm pyFloat req.latitude_form = none := by rw [hlat]; exact hbad
    rw [hsam, himg, h]
    simp [hfn]
  exact ⟨he, by rw [he]; rfl⟩

/-- Witness for C9: latitude form value `"abc"`, which `float` rejects. -/
theorem detect_pothole_malformed_latitude_witness :
    detect_pothole (fun _ => none) (fun n => toString n) 1
      ⟨true, true, "a.jpg", some "abc", none, [([true], 0.9)], ⟨0, 0⟩⟩ =
      ⟨DetectOutcome.valueErrorCrash, [], [], []⟩ :=
  (detect_pothole_malformed_latitude (fun _ => none) (fun n => toString n) 1
    ⟨true, true, "a.jpg", some "abc", none, [([true], 0.9)], ⟨0, 0⟩⟩ "abc"
    rfl rfl (by decide) rfl rfl).1

/-- C10: a non-empty mask whose pixels are all `False` does NOT take the
no-detection branch — the guard checks `masks[0].size`, not the foreground
count — so the handler commits a report with area 0, severity `"low"`,
depth 0.05, and emits one matching fan-out event. -/
theorem detect_pothole_all_false_mask (pyFloat : String → Option ℚ)
    (strftime : Nat → String) (nextId : Nat) (req : DetectRequest)
    (mask : List Bool) (score lat lon : ℚ) (rest : List (List Bool × ℚ))
    (hsam : req.sam_loaded = true) (himg : req.has_image = true)
    (hfn : ¬ req.image_filename = "")
    (hlat : parseForm pyFloat req.latitude_form = some lat)
    (hlon : parseForm pyFloat req.longitude_form = some lon)
    (hpred : req.predictions = (mask, score) :: rest)
    (hne : ¬ mask.length = 0)
    (hall : ∀ b ∈ mask, b = false) :
    (detect_pothole pyFloat strftime nextId req).outcome ≠
      DetectOutcome.noDetection ∧
    (detect_pothole pyFloat strftime nextId req).reports =
      [⟨nextId, lat, lon, "low", 0, 0.05,
        pathJoin UPLOAD_FOLDER (overlayFilename strftime req.now), score, req.now⟩] ∧
    (detect_pothole pyFloat strftime nextId req).events =
      [⟨nextId, lat, lon, "low", 0, 0.05, score, req.now⟩] ∧
    (detect_pothole pyFloat strftime nextId req).outcome =
      DetectOutcome.ok ⟨nextId, "low", 0, 0.05, score,
        "/image/" ++ overlayFilename strftime req.now⟩ := by
  have hsum : npSum mask = 0 := by
    unfold npSum
    have hf : mask.filter (fun b => b) = [] := by
      rw [List.filter_eq_nil_iff]
      intro b hb
      simp [hall b hb]
    rw [hf]
    rfl
  have harea : estimate_area (npSum mask) = 0 := by
    rw [hsum]; norm_num [estimate_area]
  have hsev : determine_severity (0:ℚ) = "low" := by norm_num [determine_severity]
  have hdep : estimate_depth (0:ℚ) = 0.05 := by norm_num [estimate_depth, min_def]
  have he := detect_pothole_run_eq pyFloat strftime nextId req mask score lat lon
    rest hsam himg hfn hlat hlon hpred hne
  rw [he, harea, hsev, hdep]
  exact ⟨fun hc => DetectOutcome.noConfusion hc, rfl, rfl, rfl⟩

/-- Witness for C10 at a concrete three-pixel all-`False` mask. -/
theorem detect_pothole_all_false_mask_witness :
    (detect_pothole (fun _ => none) (fun n => toString n) 1
      ⟨true, true, "a.jpg", none, none, [([false, false, false], 0.9)], ⟨0, 0⟩⟩).reports =
      [⟨1, 0, 0, "low", 0, 0.05,
        pathJoin UPLOAD_FOLDER (overlayFilename (fun n => toString n) ⟨0, 0⟩),
        0.9, ⟨0, 0⟩⟩] :=
  (detect_pothole_all_false_mask (fun _ => none) (fun n => toString n) 1
    ⟨true, true, "a.jpg", none, none, [([false, false, false], 0.9)], ⟨0, 0⟩⟩
    [false, false, false] 0.9 0 0 [] rfl rfl (by decide) rfl rfl rfl
    (by decide) (by decide)).2.1

end PotholeApp
